import Mathlib

/-!
Shallow embedding of the reciprocity_bot player state machine (src/player.rs)
and the companion connection control/pusher logic (src/net.rs).

Modelling conventions:
- `arraydeque::ArrayDeque<[Track; 100]>` is a `List Track` whose length never
  exceeds `MUSIC_QUEUE_LIMIT`; the list head is the deque front.
- `Duration` and `Instant` are `Nat` (milliseconds).
- Provider (lavalink) calls and snapshot publications are recorded as an
  ordered `List Event`; the provider itself is modelled as always succeeding,
  since every claim under study is about the player's own state logic.
- Fallible operations return `Except PlayerError Unit` alongside the new
  state and the emitted events, mirroring `Result<(), PlayerError>`.
-/

namespace Reciprocity

def MUSIC_QUEUE_LIMIT : Nat := 100

/-- A playable track; opaque to the player logic, identified by an id. -/
structure Track where
  id : Nat
deriving DecidableEq, Repr

/-- Source: `PlayState` from player.rs. -/
inductive PlayState
  | Play
  | Pause
deriving DecidableEq, Repr

/-- Source: `Playback` (loop mode) from player.rs. -/
inductive Playback
  | Normal
  | AllLoop
  | OneLoop
deriving DecidableEq, Repr

/-- Source: `PlayerError` from player.rs; payloads reduced to what the logic inspects. -/
inductive PlayerError
  | Lavalink (code : Nat)
  | SongbirdJoin (code : Nat)
  | SongbirdLeave (code : Nat)
  | NotInAVoiceChannel
  | PlaylistFull (t : Track)
  | SearchFailed (s : String)
  | NoCurrentSong
deriving DecidableEq, Repr

/-- Source: `PlayerState` from player.rs: the published snapshot value. -/
structure PlayerState where
  bot : Nat
  current : Option ((Nat × Nat) × Track)
  playlist : List Track
  history : List Track
  play_state : PlayState
  playback : Playback
deriving DecidableEq, Repr

/-- Source: `PlayerState::new`: fresh state of a newly created player. -/
def PlayerState.new (bot : Nat) : PlayerState :=
  { bot := bot
    current := none
    playlist := []
    history := []
    play_state := .Play
    playback := .Normal }

/-- Observable effects of a player operation, in order of occurrence:
snapshot publications on the watch channel and lavalink provider calls. -/
inductive Event
  | publish (s : PlayerState)
  | lavalinkPlay (t : Track)
  | lavalinkStop
  | lavalinkPause
  | lavalinkResume
deriving DecidableEq, Repr

namespace Player

/-- Source: `Player::push_to_history_front`: pop the back when full, then push front. -/
def push_to_history_front (s : PlayerState) (t : Track) : PlayerState :=
  let history := if s.history.length = MUSIC_QUEUE_LIMIT then s.history.dropLast else s.history
  { s with history := t :: history }

/-- Source: `Player::push_to_playlist_back`: pop the back when full, then push back. -/
def push_to_playlist_back (s : PlayerState) (t : Track) : PlayerState :=
  let playlist := if s.playlist.length = MUSIC_QUEUE_LIMIT then s.playlist.dropLast else s.playlist
  { s with playlist := playlist ++ [t] }

/-- Source: `Player::push_to_playlist_front`: pop the back when full, then push front. -/
def push_to_playlist_front (s : PlayerState) (t : Track) : PlayerState :=
  let playlist := if s.playlist.length = MUSIC_QUEUE_LIMIT then s.playlist.dropLast else s.playlist
  { s with playlist := t :: playlist }

/-- Source: `Player::resume`: provider resume, set Play, publish. -/
def resume (s : PlayerState) : PlayerState × List Event × Except PlayerError Unit :=
  let s1 := { s with play_state := PlayState.Play }
  (s1, [Event.lavalinkResume, Event.publish s1], Except.ok ())

/-- Source: `Player::pause`: provider pause, set Pause, publish. -/
def pause (s : PlayerState) : PlayerState × List Event × Except PlayerError Unit :=
  let s1 := { s with play_state := PlayState.Pause }
  (s1, [Event.lavalinkPause, Event.publish s1], Except.ok ())

/-- Source: `Player::dynamic_pause_resume`: pause when playing, resume when paused. -/
def dynamic_pause_resume (s : PlayerState) :
    PlayerState × List Event × Except PlayerError Unit :=
  match s.play_state with
  | PlayState.Play => pause s
  | PlayState.Pause => resume s

/-- Routing of one skipped track per the loop mode (the shared match in
`Player::skip`): to the playlist back under AllLoop, else to history front. -/
def skipMove (s : PlayerState) (t : Track) : PlayerState :=
  match s.playback with
  | Playback.AllLoop => push_to_playlist_back s t
  | _ => push_to_history_front s t

/-- The `for _i in 0..i-1` loop of `Player::skip`: pop the playlist front and
route it per the loop mode, stopping early when the playlist is exhausted. -/
def skipLoop : Nat → PlayerState → PlayerState
  | 0, s => s
  | n + 1, s =>
    match s.playlist with
    | [] => s
    | t :: rest => skipLoop n (skipMove { s with playlist := rest } t)

/-- The `current.take()` step of `Player::skip`: route a present Current per
the loop mode; the second component is the `changed` flag. -/
def skip_take_current (s : PlayerState) : PlayerState × Bool :=
  match s.current with
  | some (_, t) => (skipMove { s with current := none } t, true)
  | none => (s, false)

/-- Source: `Player::skip`. -/
def skip (s : PlayerState) (i : Nat) : PlayerState × List Event × Except PlayerError Unit :=
  if i = 0 then (s, [], Except.ok ())
  else
    let r := skip_take_current s
    let s2 := skipLoop (i - 1) r.1
    let evs := if r.2 then [Event.publish s2] else []
    (s2, evs ++ [Event.lavalinkStop], Except.ok ())

/-- The `for _i in 0..i` loop of `Player::back_skip`: pop up to `n` items off
the history front onto the playlist front; reports whether any pop happened. -/
def back_skip_loop : Nat → PlayerState → PlayerState × Bool
  | 0, s => (s, false)
  | n + 1, s =>
    match s.history with
    | [] => back_skip_loop n s
    | t :: rest =>
      let s1 := push_to_playlist_front { s with history := rest } t
      ((back_skip_loop n s1).1, true)

/-- The first stage of `Player::play_next`: handle Current per the loop mode
(move to history, move to playlist back, or reset its elapsed time); the
second component is the `changed` flag. Note the OneLoop reset leaves
`changed` false, exactly as in the source. -/
def play_next_move_current (s : PlayerState) (now : Nat) : PlayerState × Bool :=
  match s.playback with
  | Playback.Normal =>
    match s.current with
    | some (_, t) => (push_to_history_front { s with current := none } t, true)
    | none => (s, false)
  | Playback.AllLoop =>
    match s.current with
    | some (_, t) => (push_to_playlist_back { s with current := none } t, true)
    | none => (s, false)
  | Playback.OneLoop =>
    match s.current with
    | some (_, t) => ({ s with current := some ((0, now), t) }, false)
    | none => (s, false)

/-- The second stage of `Player::play_next`: when Current is empty, pull the
playlist front into Current with fresh elapsed time and set Play. -/
def play_next_pull (s : PlayerState) (now : Nat) : PlayerState × Bool :=
  match s.current with
  | none =>
    match s.playlist with
    | t :: rest =>
      ({ s with current := some ((0, now), t), playlist := rest,
                play_state := PlayState.Play }, true)
    | [] => (s, false)
  | some _ => (s, false)

/-- Source: `Player::play_next` (internal). -/
def play_next (s : PlayerState) (now : Nat) :
    PlayerState × List Event × Except PlayerError Unit :=
  let r1 := play_next_move_current s now
  let r2 := play_next_pull r1.1 now
  let evs := if r1.2 || r2.2 then [Event.publish r2.1] else []
  match r2.1.current with
  | none => (r2.1, evs ++ [Event.lavalinkStop], Except.ok ())
  | some (_, t) => (r2.1, evs ++ [Event.lavalinkPlay t], Except.ok ())

/-- The `current.take()` step of `Player::back_skip`: a present Current goes
to the playlist front; the flag reports it (in the source, `changed` and
`current_was_some` are set together and are always equal). -/
def back_skip_take_current (s : PlayerState) : PlayerState × Bool :=
  match s.current with
  | some (_, t) => (push_to_playlist_front { s with current := none } t, true)
  | none => (s, false)

/-- Source: `Player::back_skip`. -/
def back_skip (s : PlayerState) (i : Nat) (now : Nat) :
    PlayerState × List Event × Except PlayerError Unit :=
  if i = 0 then (s, [], Except.ok ())
  else
    let r := back_skip_take_current s
    let r2 := back_skip_loop i r.1
    let evs := if r.2 || r2.2 then [Event.publish r2.1] else []
    if r.2 then (r2.1, evs ++ [Event.lavalinkStop], Except.ok ())
    else
      let r3 := play_next r2.1 now
      (r3.1, evs ++ r3.2.1, r3.2.2)

/-- Source: `ArrayDeque::push_back` on the playlist: appends and reports success when
not full, otherwise leaves the list unchanged and reports failure. -/
def playlist_push_back (l : List Track) (t : Track) : List Track × Bool :=
  if l.length < MUSIC_QUEUE_LIMIT then (l ++ [t], true) else (l, false)

/-- The tail of the `enqueue` insertion loop (items after the first): each
push is attempted and its capacity error ignored. -/
def enqueue_fold (l : List Track) (ts : List Track) : List Track :=
  ts.foldl (fun acc t => (playlist_push_back acc t).1) l

/-- The tail of `Player::enqueue` after the insertion loop: start playing if
nothing is current, otherwise just republish. -/
def enqueue_finish (s : PlayerState) (now : Nat) :
    PlayerState × List Event × Except PlayerError Unit :=
  if s.current.isNone then play_next s now
  else (s, [Event.publish s], Except.ok ())

/-- Source: `Player::enqueue`: only the first item's capacity overflow aborts the batch. -/
def enqueue (s : PlayerState) (tracks : List Track) (now : Nat) :
    PlayerState × List Event × Except PlayerError Unit :=
  match tracks with
  | [] => enqueue_finish s now
  | t :: rest =>
    match playlist_push_back s.playlist t with
    | (_, false) => (s, [], Except.error (PlayerError.PlaylistFull t))
    | (pl, true) => enqueue_finish { s with playlist := enqueue_fold pl rest } now

/-- Source: `Player::jump`. -/
def jump (s : PlayerState) (_pos : Nat) : PlayerState × List Event × Except PlayerError Unit :=
  match s.current with
  | some _ => (s, [], Except.ok ())
  | none => (s, [], Except.error PlayerError.NoCurrentSong)

/-- Source: `Player::clear_queue`. -/
def clear_queue (s : PlayerState) : PlayerState × List Event :=
  if s.playlist.isEmpty then (s, [])
  else
    let s1 := { s with playlist := [] }
    (s1, [Event.publish s1])

/-- Source: `Player::playback` (the setLoopMode operation): set the requested mode if
it differs from the active one, otherwise reset to Normal; always publish. -/
def playback (s : PlayerState) (p : Playback) : PlayerState × List Event :=
  let s1 := if s.playback ≠ p then { s with playback := p }
            else { s with playback := Playback.Normal }
  (s1, [Event.publish s1])

/-- Source: `Player::update`: on a position report, rewrite Current's elapsed/timestamp
pair and publish; nothing happens when no Current item exists. -/
def update (s : PlayerState) (positionMillis : Nat) (now : Nat) :
    PlayerState × List Event :=
  match s.current with
  | some (_, t) =>
    let s1 := { s with current := some ((positionMillis, now), t) }
    (s1, [Event.publish s1])
  | none => (s, [])

/-- Source: `Player::track_end`: delegates to `play_next`. -/
def track_end (s : PlayerState) (now : Nat) :
    PlayerState × List Event × Except PlayerError Unit :=
  play_next s now

end Player

/-! ### Companion connection layer (src/net.rs) -/

/-- Source: `PlayMode` from the communication protocol, as matched in net.rs. -/
inductive PlayMode
  | Normal
  | LoopAll
  | LoopOne
deriving DecidableEq, Repr

/-- Source: `parse_mode` from net.rs. -/
def parse_mode : PlayMode → Playback
  | PlayMode.Normal => Playback.Normal
  | PlayMode.LoopAll => Playback.AllLoop
  | PlayMode.LoopOne => Playback.OneLoop

/-- Source: `PlayerRequest` from guild/player_manager as dispatched in net.rs;
channels are identifiers. -/
inductive PlayerRequest
  | PauseResume (channel : Nat)
  | Skip (i : Nat) (channel : Nat)
  | BackSkip (i : Nat) (channel : Nat)
  | Jump (pos : Nat) (channel : Nat)
  | Playback (p : Playback) (channel : Nat)
  | Enqueue (tracks : List Track) (channel : Nat)
deriving DecidableEq, Repr

/-- Source: `PlayerControl` wire commands from the communication protocol. -/
inductive PlayerControl
  | Resume
  | Pause
  | Skip (i : Nat)
  | BackSkip (i : Nat)
  | SetTime (pos : Nat)
  | PlayMode (m : PlayMode)
  | Enqueue (url : String)
  | Leave
  | Join
deriving DecidableEq, Repr

/-- What `handle_control_req` asks of the player manager for one command:
either a `PlayerRequest`, or the manager-level leave/join operations. -/
inductive ManagerAction
  | request (r : PlayerRequest)
  | leave (channel : Nat)
  | join (channel : Nat)
deriving DecidableEq, Repr

/-- The command-routing match of `ClientConnection::handle_control_req`
(net.rs lines 223-270): Resume and Pause both dispatch `PauseResume`; Enqueue
first searches, then enqueues only `tracks.drain(..).take(1)`; a search error
aborts with that error. `search` abstracts `player_manager.search` (external
provider), already stringified as in the result path. -/
def route_control (con : PlayerControl) (channel : Nat)
    (search : String → Except String (List Track)) : Except String ManagerAction :=
  match con with
  | PlayerControl.Resume => Except.ok (ManagerAction.request (PlayerRequest.PauseResume channel))
  | PlayerControl.Pause => Except.ok (ManagerAction.request (PlayerRequest.PauseResume channel))
  | PlayerControl.Skip i => Except.ok (ManagerAction.request (PlayerRequest.Skip i channel))
  | PlayerControl.BackSkip i => Except.ok (ManagerAction.request (PlayerRequest.BackSkip i channel))
  | PlayerControl.SetTime pos => Except.ok (ManagerAction.request (PlayerRequest.Jump pos channel))
  | PlayerControl.PlayMode m =>
    Except.ok (ManagerAction.request (PlayerRequest.Playback (parse_mode m) channel))
  | PlayerControl.Enqueue url =>
    match search url with
    | Except.ok tracks =>
      Except.ok (ManagerAction.request (PlayerRequest.Enqueue (tracks.take 1) channel))
    | Except.error e => Except.error e
  | PlayerControl.Leave => Except.ok (ManagerAction.leave channel)
  | PlayerControl.Join => Except.ok (ManagerAction.join channel)

instance exceptDecEq {ε α : Type} [DecidableEq ε] [DecidableEq α] :
    DecidableEq (Except ε α) := fun a b =>
  match a, b with
  | Except.ok x, Except.ok y =>
    if h : x = y then Decidable.isTrue (by rw [h]) else Decidable.isFalse (by simp [h])
  | Except.ok _, Except.error _ => Decidable.isFalse (by simp)
  | Except.error _, Except.ok _ => Decidable.isFalse (by simp)
  | Except.error x, Except.error y =>
    if h : x = y then Decidable.isTrue (by rw [h]) else Decidable.isFalse (by simp [h])

/-- Source: `PlayerControlResult` answered to the client, correlated by uuid. -/
structure PlayerControlResult where
  uuid : String
  req : PlayerControl
  res : Except String Unit
deriving DecidableEq, Repr

/-- The server-to-client messages that the control path can emit. -/
inductive NetMessage
  | clientControlResult (r : PlayerControlResult)
  | playerStateEmpty
  | unexpected (s : String)
deriving DecidableEq, Repr

/-- Source: `ClientConnection::handle_control_req` (net.rs lines 189-281), as the list
of messages the spawned task sends back. `voice_state` is the session's
routing target, `managers` tells which guilds have a `PlayerManager`, and
`request_result` abstracts the outcome of `player_manager.request`/
`leave`/`join`, already stringified as by `format!("{:?}", e)`. -/
def handle_control_req (uuid : String) (con : PlayerControl)
    (voice_state : Option (Nat × Nat))
    (managers : Nat → Bool)
    (request_result : ManagerAction → Except String Unit)
    (search : String → Except String (List Track)) : List NetMessage :=
  match voice_state with
  | none => [NetMessage.clientControlResult ⟨uuid, con, Except.error "No Bot in Channel"⟩]
  | some (guild, channel) =>
    if managers guild then
      let res := match route_control con channel search with
        | Except.error e => Except.error e
        | Except.ok act => request_result act
      [NetMessage.clientControlResult ⟨uuid, con, res⟩]
    else
      [NetMessage.clientControlResult ⟨uuid, con, Except.error "Internal Error"⟩]

/-- A message of the pusher loop: an incremental patch or a full snapshot. -/
inductive PusherMsg (St : Type) (Patch : Type)
  | updateState (p : Patch)
  | fullState (s : St)

/-- One iteration of the inner loop of
`ClientConnection::player_state_sender_run` (net.rs lines 545-582) after a
change notification, given the last-sent state and the freshly generated one:
skip when equal; on successful patch generation, advance `last_state` and send
the patch; on patch-generation failure, log and `continue` — nothing is sent
and `last_state` is not advanced. `generate_patch` abstracts
`Message::generate_patch` (external crate). -/
def pusher_step {St Patch Err : Type} [DecidableEq St]
    (generate_patch : St → St → Except Err Patch)
    (last_state new_state : St) : St × Option (PusherMsg St Patch) :=
  if new_state = last_state then (last_state, none)
  else
    match generate_patch last_state new_state with
    | Except.error _ => (last_state, none)
    | Except.ok p => (new_state, some (PusherMsg.updateState p))

/-- Modelled from the spec: the behaviour §4.4 prescribes for the pusher when
patch generation fails — "the pusher must fall back to sending a full
snapshot". This definition follows the spec's words, to be compared with
`pusher_step`, which is translated from net.rs. -/
def pusher_step_spec {St Patch Err : Type} [DecidableEq St]
    (generate_patch : St → St → Except Err Patch)
    (last_state new_state : St) : St × Option (PusherMsg St Patch) :=
  if new_state = last_state then (last_state, none)
  else
    match generate_patch last_state new_state with
    | Except.error _ => (new_state, some (PusherMsg.fullState new_state))
    | Except.ok p => (new_state, some (PusherMsg.updateState p))

/-- Modelled from the spec: `guild/player_manager.rs` (the `PlayerManager`
handling of `PlayerRequest`) is not under src/; per §4.1 and §9, the
`PauseResume` player request invokes the player's `dynamic_pause_resume`. -/
def dispatch_pause_resume (s : PlayerState) :
    PlayerState × List Event × Except PlayerError Unit :=
  Player.dynamic_pause_resume s

/-! ### Capacity invariant machinery -/

/-- Both deques stay within the fixed capacity. -/
def Inv (s : PlayerState) : Prop :=
  s.playlist.length ≤ MUSIC_QUEUE_LIMIT ∧ s.history.length ≤ MUSIC_QUEUE_LIMIT

/-- The ops the bounded-collection claim ranges over. -/
inductive PlayerOp
  | enqueue (tracks : List Track) (now : Nat)
  | skip (i : Nat)
  | backSkip (i : Nat) (now : Nat)

/-- State reached after one operation (its new `player_state`). -/
def applyOp (s : PlayerState) : PlayerOp → PlayerState
  | PlayerOp.enqueue ts now => (Player.enqueue s ts now).1
  | PlayerOp.skip i => (Player.skip s i).1
  | PlayerOp.backSkip i now => (Player.back_skip s i now).1

/-- State reached after a whole sequence of operations. -/
def runOps (s : PlayerState) (ops : List PlayerOp) : PlayerState :=
  ops.foldl applyOp s

lemma cond_evict_push_length {l : List Track} (h : l.length ≤ MUSIC_QUEUE_LIMIT) :
    (if l.length = MUSIC_QUEUE_LIMIT then l.dropLast else l).length + 1 ≤ MUSIC_QUEUE_LIMIT := by
  by_cases hf : l.length = MUSIC_QUEUE_LIMIT
  · simp only [if_pos hf, List.length_dropLast]
    simp only [MUSIC_QUEUE_LIMIT] at hf ⊢
    omega
  · simp only [if_neg hf]
    omega

lemma push_to_history_front_inv {s : PlayerState} {t : Track} (h : Inv s) :
    Inv (Player.push_to_history_front s t) := by
  obtain ⟨hp, hh⟩ := h
  refine ⟨by simpa [Player.push_to_history_front] using hp, ?_⟩
  have := cond_evict_push_length hh
  simpa [Player.push_to_history_front] using this

lemma push_to_playlist_back_inv {s : PlayerState} {t : Track} (h : Inv s) :
    Inv (Player.push_to_playlist_back s t) := by
  obtain ⟨hp, hh⟩ := h
  refine ⟨?_, by simpa [Player.push_to_playlist_back] using hh⟩
  have := cond_evict_push_length hp
  simpa [Player.push_to_playlist_back] using this

lemma push_to_playlist_front_inv {s : PlayerState} {t : Track} (h : Inv s) :
    Inv (Player.push_to_playlist_front s t) := by
  obtain ⟨hp, hh⟩ := h
  refine ⟨?_, by simpa [Player.push_to_playlist_front] using hh⟩
  have := cond_evict_push_length hp
  simpa [Player.push_to_playlist_front] using this

lemma skipMove_inv {s : PlayerState} {t : Track} (h : Inv s) :
    Inv (Player.skipMove s t) := by
  unfold Player.skipMove
  cases s.playback
  · exact push_to_history_front_inv h
  · exact push_to_playlist_back_inv h
  · exact push_to_history_front_inv h

lemma inv_set_current {s : PlayerState} (c : Option ((Nat × Nat) × Track)) (h : Inv s) :
    Inv { s with current := c } := by
  obtain ⟨hp, hh⟩ := h
  exact ⟨hp, hh⟩

lemma skipLoop_inv (n : Nat) {s : PlayerState} (h : Inv s) :
    Inv (Player.skipLoop n s) := by
  induction n generalizing s with
  | zero => simpa [Player.skipLoop] using h
  | succ n ih =>
    rw [Player.skipLoop]
    cases hp : s.playlist with
    | nil => exact h
    | cons t rest =>
      apply ih
      apply skipMove_inv
      obtain ⟨h1, h2⟩ := h
      refine ⟨?_, h2⟩
      simp only
      rw [hp] at h1
      simp at h1
      omega

lemma skip_take_current_inv {s : PlayerState} (h : Inv s) :
    Inv (Player.skip_take_current s).1 := by
  unfold Player.skip_take_current
  cases s.current with
  | none => exact h
  | some ct => exact skipMove_inv (inv_set_current none h)

lemma skip_inv {s : PlayerState} (i : Nat) (h : Inv s) :
    Inv (Player.skip s i).1 := by
  unfold Player.skip
  by_cases hi : i = 0
  · simpa [hi] using h
  · simp only [if_neg hi]
    exact skipLoop_inv _ (skip_take_current_inv h)

lemma back_skip_loop_inv (n : Nat) {s : PlayerState} (h : Inv s) :
    Inv (Player.back_skip_loop n s).1 := by
  induction n generalizing s with
  | zero => simpa [Player.back_skip_loop] using h
  | succ n ih =>
    rw [Player.back_skip_loop]
    cases hh : s.history with
    | nil => exact ih h
    | cons t rest =>
      simp only
      apply ih
      apply push_to_playlist_front_inv
      obtain ⟨h1, h2⟩ := h
      refine ⟨h1, ?_⟩
      simp only
      rw [hh] at h2
      simp at h2
      omega

lemma play_next_move_current_inv {s : PlayerState} {now : Nat} (h : Inv s) :
    Inv (Player.play_next_move_current s now).1 := by
  unfold Player.play_next_move_current
  cases s.playback <;> cases s.current
  · exact h
  · exact push_to_history_front_inv (inv_set_current none h)
  · exact h
  · exact push_to_playlist_back_inv (inv_set_current none h)
  · exact h
  · exact ⟨h.1, h.2⟩

lemma play_next_pull_inv {s : PlayerState} {now : Nat} (h : Inv s) :
    Inv (Player.play_next_pull s now).1 := by
  unfold Player.play_next_pull
  cases s.current with
  | some ct => exact h
  | none =>
    cases hp : s.playlist with
    | nil => exact h
    | cons t rest =>
      obtain ⟨h1, h2⟩ := h
      refine ⟨?_, h2⟩
      simp only
      rw [hp] at h1
      simp at h1
      omega

lemma play_next_fst (s : PlayerState) (now : Nat) :
    (Player.play_next s now).1 =
      (Player.play_next_pull (Player.play_next_move_current s now).1 now).1 := by
  unfold Player.play_next
  cases hc : (Player.play_next_pull (Player.play_next_move_current s now).1 now).1.current <;>
    simp [hc]

lemma play_next_inv {s : PlayerState} (now : Nat) (h : Inv s) :
    Inv (Player.play_next s now).1 := by
  rw [play_next_fst]
  exact play_next_pull_inv (play_next_move_current_inv h)

lemma back_skip_take_current_inv {s : PlayerState} (h : Inv s) :
    Inv (Player.back_skip_take_current s).1 := by
  unfold Player.back_skip_take_current
  cases s.current with
  | none => exact h
  | some ct => exact push_to_playlist_front_inv (inv_set_current none h)

lemma back_skip_inv {s : PlayerState} (i now : Nat) (h : Inv s) :
    Inv (Player.back_skip s i now).1 := by
  unfold Player.back_skip
  by_cases hi : i = 0
  · simpa [hi] using h
  · simp only [if_neg hi]
    have h2 : Inv (Player.back_skip_loop i (Player.back_skip_take_current s).1).1 :=
      back_skip_loop_inv i (back_skip_take_current_inv h)
    by_cases hc : (Player.back_skip_take_current s).2
    · simpa [hc] using h2
    · simpa [hc] using play_next_inv now h2

lemma playlist_push_back_length {l : List Track} {t : Track}
    (h : l.length ≤ MUSIC_QUEUE_LIMIT) :
    (Player.playlist_push_back l t).1.length ≤ MUSIC_QUEUE_LIMIT := by
  unfold Player.playlist_push_back
  by_cases hl : l.length < MUSIC_QUEUE_LIMIT
  · simp only [if_pos hl]
    simp
    omega
  · simpa [if_neg hl] using h

lemma enqueue_fold_length (ts : List Track) {l : List Track}
    (h : l.length ≤ MUSIC_QUEUE_LIMIT) :
    (Player.enqueue_fold l ts).length ≤ MUSIC_QUEUE_LIMIT := by
  induction ts generalizing l with
  | nil => simpa [Player.enqueue_fold] using h
  | cons t rest ih =>
    rw [Player.enqueue_fold, List.foldl_cons]
    exact ih (playlist_push_back_length h)

lemma enqueue_finish_inv {s : PlayerState} (now : Nat) (h : Inv s) :
    Inv (Player.enqueue_finish s now).1 := by
  unfold Player.enqueue_finish
  by_cases hc : s.current.isNone
  · simpa [hc] using play_next_inv now h
  · simpa [hc] using h

lemma enqueue_inv {s : PlayerState} (ts : List Track) (now : Nat) (h : Inv s) :
    Inv (Player.enqueue s ts now).1 := by
  unfold Player.enqueue
  cases ts with
  | nil => exact enqueue_finish_inv now h
  | cons t rest =>
    by_cases hl : s.playlist.length < MUSIC_QUEUE_LIMIT
    · simp only [Player.playlist_push_back, if_pos hl]
      apply enqueue_finish_inv
      obtain ⟨h1, h2⟩ := h
      refine ⟨?_, h2⟩
      apply enqueue_fold_length
      simp
      omega
    · simpa [Player.playlist_push_back, if_neg hl] using h

lemma applyOp_inv {s : PlayerState} (op : PlayerOp) (h : Inv s) :
    Inv (applyOp s op) := by
  cases op with
  | enqueue ts now => exact enqueue_inv ts now h
  | skip i => exact skip_inv i h
  | backSkip i now => exact back_skip_inv i now h

lemma runOps_inv (ops : List PlayerOp) {s : PlayerState} (h : Inv s) :
    Inv (runOps s ops) := by
  induction ops generalizing s with
  | nil => simpa [runOps] using h
  | cons op rest ih =>
    rw [runOps, List.foldl_cons]
    exact ih (applyOp_inv op h)

lemma play_next_res (s : PlayerState) (now : Nat) :
    (Player.play_next s now).2.2 = Except.ok () := by
  unfold Player.play_next
  cases hc : (Player.play_next_pull (Player.play_next_move_current s now).1 now).1.current <;>
    simp [hc]

lemma enqueue_finish_res (s : PlayerState) (now : Nat) :
    (Player.enqueue_finish s now).2.2 = Except.ok () := by
  unfold Player.enqueue_finish
  by_cases hc : s.current.isNone <;> simp [hc, play_next_res]

lemma enqueue_fold_take (ts : List Track) {l : List Track}
    (h : l.length ≤ MUSIC_QUEUE_LIMIT) :
    Player.enqueue_fold l ts = l ++ ts.take (MUSIC_QUEUE_LIMIT - l.length) := by
  induction ts generalizing l with
  | nil => simp [Player.enqueue_fold]
  | cons t rest ih =>
    have hstep : Player.enqueue_fold l (t :: rest) =
        Player.enqueue_fold (Player.playlist_push_back l t).1 rest := rfl
    rw [hstep]
    by_cases hl : l.length < MUSIC_QUEUE_LIMIT
    · rw [show (Player.playlist_push_back l t).1 = l ++ [t] from by
        simp [Player.playlist_push_back, hl]]
      rw [ih (by simp; omega)]
      rw [show MUSIC_QUEUE_LIMIT - l.length = (MUSIC_QUEUE_LIMIT - (l ++ [t]).length) + 1 from by
        simp; omega]
      rw [List.take_succ_cons]
      simp
    · rw [show (Player.playlist_push_back l t).1 = l from by
        simp [Player.playlist_push_back, hl]]
      rw [ih h]
      rw [show MUSIC_QUEUE_LIMIT - l.length = 0 from by omega]
      simp

/-! ### Claim theorems -/

/-- Claim C1: for every sequence of enqueue, skip, and backSkip operations
starting from a fresh Player, the Playlist and the History each contain at
most 100 tracks, and the Current item is always either absent or exactly one
(elapsed, timestamp, track) tuple. -/
theorem enqueue_skip_backskip_bounded (bot : Nat) (ops : List PlayerOp) :
    (runOps (PlayerState.new bot) ops).playlist.length ≤ 100 ∧
    (runOps (PlayerState.new bot) ops).history.length ≤ 100 ∧
    ((runOps (PlayerState.new bot) ops).current = none ∨
      ∃ elapsed timestamp track,
        (runOps (PlayerState.new bot) ops).current = some ((elapsed, timestamp), track)) := by
  have h := runOps_inv ops (s := PlayerState.new bot)
    ⟨by simp [PlayerState.new], by simp [PlayerState.new]⟩
  refine ⟨h.1, h.2, ?_⟩
  cases hc : (runOps (PlayerState.new bot) ops).current with
  | none => exact Or.inl rfl
  | some v => exact Or.inr ⟨v.1.1, v.1.2, v.2, rfl⟩

/-- Claim C2: enqueueing a batch into a Playlist already at capacity fails
with PlaylistFull on the very first insertion, inserts nothing and leaves the
whole state (and event trace) unchanged; when the first insertion fits, the
call succeeds and the insertion loop appends exactly the capacity-fitting
prefix of the batch, silently dropping the overflowing remainder. -/
theorem enqueue_batch_semantics (s : PlayerState) (t : Track) (ts : List Track) (now : Nat) :
    (s.playlist.length = MUSIC_QUEUE_LIMIT →
      Player.enqueue s (t :: ts) now = (s, [], Except.error (PlayerError.PlaylistFull t))) ∧
    (s.playlist.length < MUSIC_QUEUE_LIMIT →
      (Player.enqueue s (t :: ts) now).2.2 = Except.ok () ∧
      Player.enqueue_fold (s.playlist ++ [t]) ts =
        s.playlist ++ (t :: ts).take (MUSIC_QUEUE_LIMIT - s.playlist.length)) := by
  constructor
  · intro hfull
    have hnlt : ¬ s.playlist.length < MUSIC_QUEUE_LIMIT := by omega
    simp [Player.enqueue, Player.playlist_push_back, hnlt]
  · intro hlt
    constructor
    · simp only [Player.enqueue, Player.playlist_push_back, if_pos hlt]
      exact enqueue_finish_res _ _
    · rw [enqueue_fold_take ts (by simp; omega)]
      rw [show MUSIC_QUEUE_LIMIT - s.playlist.length =
            (MUSIC_QUEUE_LIMIT - (s.playlist ++ [t]).length) + 1 from by simp; omega]
      rw [List.take_succ_cons]
      simp

/-- Witness for C2 at concrete inputs: a playlist holding 100 tracks rejects
a 3-track batch unchanged; an empty playlist accepts a 1-track batch. -/
theorem enqueue_batch_semantics_witness :
    Player.enqueue { PlayerState.new 0 with playlist := List.replicate 100 (Track.mk 0) }
        [Track.mk 1, Track.mk 2, Track.mk 3] 0 =
      ({ PlayerState.new 0 with playlist := List.replicate 100 (Track.mk 0) }, [],
        Except.error (PlayerError.PlaylistFull (Track.mk 1))) ∧
    (Player.enqueue (PlayerState.new 0) [Track.mk 1] 0).2.2 = Except.ok () :=
  ⟨(enqueue_batch_semantics _ (Track.mk 1) [Track.mk 2, Track.mk 3] 0).1
      (by simp [PlayerState.new, MUSIC_QUEUE_LIMIT]),
   ((enqueue_batch_semantics (PlayerState.new 0) (Track.mk 1) [] 0).2
      (by simp [PlayerState.new, MUSIC_QUEUE_LIMIT])).1⟩

/-- Claim C3 counterexample: when patch generation fails between two distinct
snapshots, the pusher from net.rs sends nothing at all (it keeps the last-sent
snapshot and continues), while the spec-modelled pusher would send a full
snapshot of the new state — so the fallback the claim asserts does not happen. -/
theorem pusher_patch_error_counterexample :
    pusher_step (fun _ _ => (Except.error 0 : Except Nat Nat)) (PlayerState.new 0)
        { PlayerState.new 0 with play_state := PlayState.Pause } =
      (PlayerState.new 0, none) ∧
    pusher_step_spec (fun _ _ => (Except.error 0 : Except Nat Nat)) (PlayerState.new 0)
        { PlayerState.new 0 with play_state := PlayState.Pause } =
      ({ PlayerState.new 0 with play_state := PlayState.Pause },
       some (PusherMsg.fullState { PlayerState.new 0 with play_state := PlayState.Pause })) := by
  constructor <;> rfl

/-- Claim C3 (amended): whenever patch generation between the last-sent
snapshot and a changed new snapshot fails, the pusher sends nothing for that
change and leaves the last-sent snapshot unchanged (so the next successful
patch, generated against that stale snapshot, covers the skipped change). -/
theorem pusher_patch_error_skips {St Patch Err : Type} [DecidableEq St]
    (generate_patch : St → St → Except Err Patch) (last_state new_state : St) (e : Err)
    (hne : new_state ≠ last_state)
    (herr : generate_patch last_state new_state = Except.error e) :
    pusher_step generate_patch last_state new_state = (last_state, none) := by
  simp only [pusher_step, if_neg hne, herr]

/-- Witness for the amended C3 at a concrete input. -/
theorem pusher_patch_error_skips_witness :
    pusher_step (fun _ _ => (Except.error 0 : Except Nat Nat)) 0 1 = (0, none) :=
  pusher_patch_error_skips (fun _ _ => Except.error 0) 0 1 0 (by decide) rfl

/-- Claim C4: the Resume and Pause control commands route to the identical
player request (PauseResume), and the dispatched request toggles: it pauses a
playing player and resumes a paused one, whichever direction was requested;
the provider call and published snapshot match the performed transition. -/
theorem resume_pause_identical_toggle :
    (∀ channel : Nat, ∀ search : String → Except String (List Track),
      route_control PlayerControl.Resume channel search =
        route_control PlayerControl.Pause channel search) ∧
    (∀ channel : Nat, ∀ search : String → Except String (List Track),
      route_control PlayerControl.Resume channel search =
        Except.ok (ManagerAction.request (PlayerRequest.PauseResume channel))) ∧
    (∀ s : PlayerState, (dispatch_pause_resume s).1.play_state =
        match s.play_state with
        | PlayState.Play => PlayState.Pause
        | PlayState.Pause => PlayState.Play) ∧
    (∀ s : PlayerState, (dispatch_pause_resume s).2.1 =
        [match s.play_state with
         | PlayState.Play => Event.lavalinkPause
         | PlayState.Pause => Event.lavalinkResume,
         Event.publish (dispatch_pause_resume s).1]) := by
  refine ⟨fun _ _ => rfl, fun _ _ => rfl, fun s => ?_, fun s => ?_⟩ <;>
    cases hp : s.play_state <;>
      simp [dispatch_pause_resume, Player.dynamic_pause_resume, Player.pause,
        Player.resume, hp]

/-- Claim C5 counterexample: a call to update on a player with no Current item
publishes no snapshot at all (the claim asserts a snapshot is always
published on every call to update). -/
theorem update_no_current_counterexample :
    Player.update (PlayerState.new 0) 5 3 = (PlayerState.new 0, []) := rfl

/-- Claim C5 (amended): when a Current item exists, update rewrites its
elapsed/timestamp pair from the reported position and always publishes a
snapshot, bypassing change detection; when no Current item exists, update is
a no-op and publishes nothing. -/
theorem update_republishes (s : PlayerState) (pos now : Nat) :
    (∀ e : Nat × Nat, ∀ t : Track, s.current = some (e, t) →
      Player.update s pos now =
        ({ s with current := some ((pos, now), t) },
         [Event.publish { s with current := some ((pos, now), t) }])) ∧
    (s.current = none → Player.update s pos now = (s, [])) := by
  constructor
  · rintro e t hc
    simp [Player.update, hc]
  · intro hc
    simp [Player.update, hc]

/-- Witness for the amended C5: both branches at concrete inputs. -/
theorem update_republishes_witness :
    Player.update { PlayerState.new 0 with current := some ((1, 2), Track.mk 9) } 5 3 =
      ({ PlayerState.new 0 with current := some ((5, 3), Track.mk 9) },
       [Event.publish { PlayerState.new 0 with current := some ((5, 3), Track.mk 9) }]) ∧
    Player.update (PlayerState.new 1) 5 3 = (PlayerState.new 1, []) :=
  ⟨(update_republishes { PlayerState.new 0 with current := some ((1, 2), Track.mk 9) } 5 3).1
      (1, 2) (Track.mk 9) rfl,
   (update_republishes (PlayerState.new 1) 5 3).2 rfl⟩

/-- Claim C6: skip(0) and backSkip(0) succeed, leave the whole player state
unchanged, publish no snapshot and issue no provider call. -/
theorem skip_zero_noop (s : PlayerState) (now : Nat) :
    Player.skip s 0 = (s, [], Except.ok ()) ∧
    Player.back_skip s 0 now = (s, [], Except.ok ()) := by
  constructor <;> simp [Player.skip, Player.back_skip]

/-- Claim C7 counterexample: from a state whose loop mode is already LoopAll,
setting LoopAll twice ends at LoopAll, not Off — the first call resets to
Normal and the second sets LoopAll again. -/
theorem loopmode_double_set_counterexample :
    (Player.playback (Player.playback { PlayerState.new 0 with playback := Playback.AllLoop }
        Playback.AllLoop).1 Playback.AllLoop).1.playback = Playback.AllLoop ∧
    Playback.AllLoop ≠ Playback.Normal := by
  constructor
  · rfl
  · decide

/-- Claim C7 (amended): when the requested mode differs from the active one,
setting it twice in a row ends at Off/Normal; and every call to setLoopMode
publishes exactly one snapshot, even when the resulting state is unchanged. -/
theorem loopmode_double_set (s : PlayerState) (m : Playback) (h : s.playback ≠ m) :
    (Player.playback (Player.playback s m).1 m).1.playback = Playback.Normal ∧
    ∀ s2 : PlayerState, ∀ m2 : Playback,
      (Player.playback s2 m2).2 = [Event.publish (Player.playback s2 m2).1] := by
  constructor
  · simp [Player.playback, h]
  · intro s2 m2
    rfl

/-- Witness for the amended C7 at a concrete input. -/
theorem loopmode_double_set_witness :
    (Player.playback (Player.playback (PlayerState.new 0) Playback.AllLoop).1
        Playback.AllLoop).1.playback = Playback.Normal :=
  (loopmode_double_set (PlayerState.new 0) Playback.AllLoop (by decide)).1

/-- Claim C8: from an empty player, enqueue([trackA, trackB]) makes trackA the
Current item with elapsed time 0 and PlayState Playing, leaves Playlist =
[trackB], publishes exactly one snapshot, and issues exactly one provider
call, namely play(trackA). -/
theorem enqueue_two_into_empty (bot now : Nat) (trackA trackB : Track) :
    Player.enqueue (PlayerState.new bot) [trackA, trackB] now =
      ({ PlayerState.new bot with
          current := some ((0, now), trackA)
          playlist := [trackB]
          play_state := PlayState.Play },
       [Event.publish { PlayerState.new bot with
          current := some ((0, now), trackA)
          playlist := [trackB]
          play_state := PlayState.Play },
        Event.lavalinkPlay trackA],
       Except.ok ()) := rfl

/-- Claim C9: every inbound control request is answered with exactly one
correlated ControlResult carrying the request's uuid and command — including
the no-routing-target and no-player-manager internal-error cases — whose
payload is the routed command's outcome or the matching error string; the
request is never dropped. -/
theorem control_req_exactly_one_result (uuid : String) (con : PlayerControl)
    (voice_state : Option (Nat × Nat)) (managers : Nat → Bool)
    (request_result : ManagerAction → Except String Unit)
    (search : String → Except String (List Track)) :
    ∃ r : PlayerControlResult,
      handle_control_req uuid con voice_state managers request_result search =
        [NetMessage.clientControlResult r] ∧
      r.uuid = uuid ∧ r.req = con ∧
      r.res = (match voice_state with
        | none => Except.error "No Bot in Channel"
        | some (guild, channel) =>
          if managers guild then
            match route_control con channel search with
            | Except.error e => Except.error e
            | Except.ok act => request_result act
          else Except.error "Internal Error") := by
  cases voice_state with
  | none => exact ⟨⟨uuid, con, Except.error "No Bot in Channel"⟩, rfl, rfl, rfl, rfl⟩
  | some gc =>
    obtain ⟨g, ch⟩ := gc
    by_cases hm : managers g
    · refine ⟨⟨uuid, con, match route_control con ch search with
        | Except.error e => Except.error e
        | Except.ok act => request_result act⟩, ?_, rfl, rfl, ?_⟩
      · simp [handle_control_req, hm]
      · simp [hm]
    · refine ⟨⟨uuid, con, Except.error "Internal Error"⟩, ?_, rfl, rfl, ?_⟩
      · simp [handle_control_req, hm]
      · simp [hm]

/-- Claim C10: when the provider search behind an Enqueue control command
returns n ≥ 1 candidate tracks, exactly the first one is passed to the
player's enqueue request and the rest are discarded. -/
theorem enqueue_takes_first_result (url : String) (channel : Nat)
    (search : String → Except String (List Track)) (t : Track) (ts : List Track)
    (h : search url = Except.ok (t :: ts)) :
    route_control (PlayerControl.Enqueue url) channel search =
      Except.ok (ManagerAction.request (PlayerRequest.Enqueue [t] channel)) := by
  simp [route_control, h]

/-- Witness for C10: a search returning three tracks enqueues only the first. -/
theorem enqueue_takes_first_result_witness :
    route_control (PlayerControl.Enqueue "query") 3
        (fun _ => Except.ok [Track.mk 1, Track.mk 2, Track.mk 3]) =
      Except.ok (ManagerAction.request (PlayerRequest.Enqueue [Track.mk 1] 3)) :=
  enqueue_takes_first_result "query" 3 _ (Track.mk 1) [Track.mk 2, Track.mk 3] rfl

end Reciprocity
